import Mathlib

/-!
Shallow embedding of the plug-and-play connection store in
`src/store/pnp.js` of ambianic-ui: the Vuex state record, its mutations,
its actions, and the event handlers wired onto the signaling session and
onto each peer data connection.  Actions are split at their `await`
suspension points into event steps of a labelled transition system;
each step is the maximal synchronous segment the JS engine runs to
completion.  External collaborators (PeerFetch, EdgeAPI, PeerRoom,
localStorage, timers) are modelled at their interface boundary:
handles are tracked as presence values, the auth round trip and the room
query are step parameters, localStorage is a field of the state record,
and `close()` calls are accumulated in a log.
-/

namespace AmbianicPnp

/-- Peer connection status enum, from `mutation-types.js` values used in
`state.peerConnectionStatus`. -/
inductive PeerStatus where
  | DISCONNECTED
  | CONNECTING
  | DISCONNECTING
  | AUTHENTICATING
  | CONNECTED
  | CONNECTION_ERROR
deriving DecidableEq, Repr

/-- Signaling (PnP service) connection status enum. -/
inductive ServiceStatus where
  | DISCONNECTED
  | CONNECTING
  | CONNECTED
deriving DecidableEq, Repr

/-- LAN discovery cycle status enum. -/
inductive DiscStatus where
  | OFF
  | DISCOVERING
  | CANCELLED
  | ERROR
  | DONE
deriving DecidableEq, Repr

/-- A peer DataConnection object: `id` is the object identity (allocation
order), `peer` is the remote peer id it targets (`peerConnection.peer`). -/
structure Conn where
  id : Nat
  peer : String
deriving DecidableEq, Repr

/-- The Vuex store state record of `pnp.js` (lines 46-115).  `peer` is
tracked as a presence flag; `storedRemotePeerId` models the durable
localStorage entry under key `STORAGE_KEY + ".remotePeerId"`; `peerFetch`
records which connection the PeerFetch wrapper was built on; `edgeAPI`
records presence of the EdgeAPI instance. -/
structure PnpState where
  peerCreated : Bool
  myPeerId : Option String
  remotePeerId : Option String
  storedRemotePeerId : Option String
  discoveryStatus : DiscStatus
  discoveredPeers : Option (List String)
  userMessage : String
  peerConnection : Option Conn
  peerConnectionStatus : PeerStatus
  pnpServiceConnectionStatus : ServiceStatus
  peerFetch : Option Conn
  edgeAPI : Option Unit
deriving DecidableEq, Repr

/-- Initial store state (lines 46-115): `remotePeerId` is read from
localStorage at startup; `discoveredPeers` starts as the empty array;
both statuses start DISCONNECTED and discovery starts OFF. -/
def initState (stored : Option String) : PnpState :=
  { peerCreated := false
    myPeerId := none
    remotePeerId := stored
    storedRemotePeerId := stored
    discoveryStatus := .OFF
    discoveredPeers := some []
    userMessage := ""
    peerConnection := none
    peerConnectionStatus := .DISCONNECTED
    pnpServiceConnectionStatus := .DISCONNECTED
    peerFetch := none
    edgeAPI := none }

/-! ### Mutations (pnp.js lines 117-194) -/

/-- Mutation PEER_DISCONNECTED: clears the connection object and both
channel handles and sets status DISCONNECTED. -/
def mutPEER_DISCONNECTED (s : PnpState) : PnpState :=
  { s with peerConnection := none
           peerConnectionStatus := .DISCONNECTED
           peerFetch := none
           edgeAPI := none }

/-- Mutation PEER_DISCOVERING_DONE: records the discovered peer ids as
passed (possibly `undefined`) and sets discovery status DONE. -/
def mutPEER_DISCOVERING_DONE (s : PnpState) (remotePeerIds : Option (List String)) : PnpState :=
  { s with discoveryStatus := .DONE, discoveredPeers := remotePeerIds }

/-- Mutation PEER_DISCOVERING: sets status DISCOVERING and resets the
discovered set to the empty array. -/
def mutPEER_DISCOVERING (s : PnpState) : PnpState :=
  { s with discoveryStatus := .DISCOVERING, discoveredPeers := some [] }

/-- Mutation PEER_DISCOVERING_ERROR. -/
def mutPEER_DISCOVERING_ERROR (s : PnpState) : PnpState :=
  { s with discoveryStatus := .ERROR }

/-- Mutation PEER_CONNECTING: sets only the status field. -/
def mutPEER_CONNECTING (s : PnpState) : PnpState :=
  { s with peerConnectionStatus := .CONNECTING }

/-- Mutation PEER_DISCONNECTING: sets only the status field. -/
def mutPEER_DISCONNECTING (s : PnpState) : PnpState :=
  { s with peerConnectionStatus := .DISCONNECTING }

/-- Mutation PEER_AUTHENTICATING: sets only the status field. -/
def mutPEER_AUTHENTICATING (s : PnpState) : PnpState :=
  { s with peerConnectionStatus := .AUTHENTICATING }

/-- Mutation PEER_CONNECTED: stores the connection object and sets status
CONNECTED. -/
def mutPEER_CONNECTED (s : PnpState) (peerConnection : Conn) : PnpState :=
  { s with peerConnection := some peerConnection
           peerConnectionStatus := .CONNECTED }

/-- Mutation PEER_CONNECTION_ERROR: sets only the status field. -/
def mutPEER_CONNECTION_ERROR (s : PnpState) : PnpState :=
  { s with peerConnectionStatus := .CONNECTION_ERROR }

/-- Mutation PNP_SERVICE_DISCONNECTED. -/
def mutPNP_SERVICE_DISCONNECTED (s : PnpState) : PnpState :=
  { s with pnpServiceConnectionStatus := .DISCONNECTED }

/-- Mutation PNP_SERVICE_CONNECTING. -/
def mutPNP_SERVICE_CONNECTING (s : PnpState) : PnpState :=
  { s with pnpServiceConnectionStatus := .CONNECTING }

/-- Mutation PNP_SERVICE_CONNECTED. -/
def mutPNP_SERVICE_CONNECTED (s : PnpState) : PnpState :=
  { s with pnpServiceConnectionStatus := .CONNECTED }

/-- Mutation USER_MESSAGE. -/
def mutUSER_MESSAGE (s : PnpState) (newUserMessage : String) : PnpState :=
  { s with userMessage := newUserMessage }

/-- Mutation NEW_PEER_ID. -/
def mutNEW_PEER_ID (s : PnpState) (newPeerId : String) : PnpState :=
  { s with myPeerId := some newPeerId }

/-- Mutation NEW_REMOTE_PEER_ID: sets the in-memory field and writes the
durable localStorage entry. -/
def mutNEW_REMOTE_PEER_ID (s : PnpState) (newRemotePeerId : String) : PnpState :=
  { s with remotePeerId := some newRemotePeerId
           storedRemotePeerId := some newRemotePeerId }

/-- Mutation REMOTE_PEER_ID_REMOVED: clears the in-memory field and
removes the durable localStorage entry. -/
def mutREMOTE_PEER_ID_REMOVED (s : PnpState) : PnpState :=
  { s with remotePeerId := none, storedRemotePeerId := none }

/-- Mutation PEER_FETCH: stores the PeerFetch instance built on the given
connection.  Does not touch any status field. -/
def mutPEER_FETCH (s : PnpState) (peerFetch : Conn) : PnpState :=
  { s with peerFetch := some peerFetch }

/-- Mutation EDGE_API: stores the EdgeAPI instance.  Does not touch any
status field. -/
def mutEDGE_API (s : PnpState) : PnpState :=
  { s with edgeAPI := some () }

/-! ### User-facing message constants (exact strings from pnp.js) -/

/-- Message published by `discoverRemotePeerIds` when the filtered room
member list is empty (template literal, lines 221-224). -/
def stillLookingMessage : String :=
  "Still looking.\n        Please make sure you are on the same local network\n        as the Ambianic Edge device.\n      "

/-- Message of the offer-expiry timeout handler (line 485). -/
def offerTimeoutMessage : String :=
  "Peer connection attempt failed. Is the remote device online?"

/-- Message of the authentication failure path (line 544). -/
def authFailedMessage : String :=
  "Remote peer authentication failed."

/-- Message published by the peer connection close handler (line 311). -/
def connClosedMessage : String :=
  "Connection to remote peer closed"

/-- Message prefix of the peer connection error handler (line 317). -/
def connErrorMessage (c : Conn) : String :=
  "Error in connection to remote peer ID: " ++ c.peer

/-- Message of the signaling disconnect handler (line 252). -/
def serviceDisconnectedMessage : String :=
  "Disconnected. Please check your internet connection."

/-- Message of the signaling close handler (line 260). -/
def serviceClosedMessage : String :=
  "Signaling server closed connection. Will try to reconnect."

/-- Message of the signaling error handler (template literal, lines 269-271). -/
def serviceErrorMessage : String :=
  "\n      Error while connecting. Will retry shortly. Is your Internet connection OK?\n      "

/-- Message of the discovery error path (line 430). -/
def discoveryErrorMessage : String :=
  "Error while discovering peers on local WiFi."

/-! ### String helper: JavaScript `String.prototype.includes` -/

/-- Character-list version of checking that the first list starts the
second one. -/
def leadsWith : List Char → List Char → Bool
  | [], _ => true
  | _ :: _, [] => false
  | a :: as, b :: bs => a == b && leadsWith as bs

/-- Character-list version of substring containment. -/
def containsSeq (pat : List Char) : List Char → Bool
  | [] => leadsWith pat []
  | c :: cs => leadsWith pat (c :: cs) || containsSeq pat cs

/-- Model of JavaScript `text.includes(pat)`. -/
def jsIncludes (text pat : String) : Bool :=
  containsSeq pat.data text.data

/-! ### Action segments shared between the step relation and the
composed, run-to-completion action definitions -/

/-- Outcome of the awaited `state.edgeAPI.auth()` round trip: a response
`{header:{status}, content}` (content given as its decoded text, since
`PeerFetch.textDecode` is the inverse of the byte encoding used by the
edge device), or a thrown error anywhere inside the try block. -/
inductive AuthOutcome where
  | response (status : Nat) (content : String)
  | thrown
deriving DecidableEq, Repr

/-- The single error funnel, action HANDLE_PEER_CONNECTION_ERROR
(lines 589-594): publishes the supplied message and sets status
CONNECTION_ERROR.  It touches no other field. -/
def handlePeerConnectionError (s : PnpState) (errMsg : String) : PnpState :=
  mutPEER_CONNECTION_ERROR (mutUSER_MESSAGE s errMsg)

/-- First synchronous segment of action PEER_AUTHENTICATE (lines
505-517, up to `await state.edgeAPI.auth()`): commit AUTHENTICATING,
publish the progress message, construct and commit the EdgeAPI
instance. -/
def authRequestSegment (s : PnpState) (c : Conn) : PnpState :=
  mutEDGE_API
    (mutUSER_MESSAGE (mutPEER_AUTHENTICATING s)
      ("Authenticating remote peer: " ++ c.peer))

/-- The `authPassed` computation of PEER_AUTHENTICATE (lines 510-533):
true exactly when the response exists with header status 200 and the
body, decoded through the current `state.peerFetch` wrapper, includes
the trust marker "Ambianic".  A thrown request, a non-200 status, or a
decode attempt with `state.peerFetch` undefined (a TypeError caught by
the surrounding try) all leave it false. -/
def authPassed (s : PnpState) (outcome : AuthOutcome) : Bool :=
  match outcome with
  | .response status content =>
      if status == 200 then
        match s.peerFetch with
        | some _ => jsIncludes content "Ambianic"
        | none => false
      else false
  | .thrown => false

/-- Second segment of action PEER_AUTHENTICATE (lines 519-550, after the
await): on success commit PEER_CONNECTED and, when the remote id
differs from the stored one, commit NEW_REMOTE_PEER_ID; on failure
dispatch HANDLE_PEER_CONNECTION_ERROR with the fixed message. -/
def authResolveSegment (s : PnpState) (c : Conn) (outcome : AuthOutcome) : PnpState :=
  if authPassed s outcome then
    if (mutPEER_CONNECTED s c).remotePeerId ≠ some c.peer then
      mutNEW_REMOTE_PEER_ID (mutPEER_CONNECTED s c) c.peer
    else
      mutPEER_CONNECTED s c
  else
    handlePeerConnectionError s authFailedMessage

/-- Action PEER_AUTHENTICATE run to completion with the given auth round
trip outcome. -/
def PEER_AUTHENTICATE_action (s : PnpState) (c : Conn) (outcome : AuthOutcome) : PnpState :=
  authResolveSegment (authRequestSegment s c) c outcome

/-- Result of the awaited `conn.close()` in PEER_DISCONNECT: the call may
throw; the catch block only logs. -/
def tryCloseConn (closeThrows : Bool) : Except String Unit :=
  if closeThrows then Except.error "Error while closing peer DataConnection." else Except.ok ()

/-- Action PEER_DISCONNECT run to completion (lines 567-581): no-op when
already DISCONNECTED; otherwise commit DISCONNECTING, close the active
connection object if one exists (swallowing a close error), then commit
PEER_DISCONNECTED.  Returns the list of connections on which `close()`
was invoked. -/
def PEER_DISCONNECT_action (s : PnpState) (closeThrows : Bool) : PnpState × List Conn :=
  if s.peerConnectionStatus ≠ PeerStatus.DISCONNECTED then
    match (mutPEER_DISCONNECTING s).peerConnection with
    | some conn =>
        match tryCloseConn closeThrows with
        | Except.ok _ => (mutPEER_DISCONNECTED (mutPEER_DISCONNECTING s), [conn])
        | Except.error _ => (mutPEER_DISCONNECTED (mutPEER_DISCONNECTING s), [conn])
    | none => (mutPEER_DISCONNECTED (mutPEER_DISCONNECTING s), [])
  else (s, [])

/-- Helper `discoverRemotePeerIds` (lines 200-226) with the awaited room
member query given as input: filter out the local peer id; if the
remainder is non-empty return it, otherwise publish the still-looking
message and return `undefined`. -/
def discoverRemotePeerIds (s : PnpState) (clientsIds : List String) :
    PnpState × Option (List String) :=
  let remotePeerIds := clientsIds.filter (fun pid => ¬ (some pid = s.myPeerId))
  if remotePeerIds.length > 0 then
    (s, some remotePeerIds)
  else
    (mutUSER_MESSAGE s stillLookingMessage, none)

/-! ### The labelled transition system -/

/-- Whole-system state: the store plus the environment bookkeeping needed
to say which events are enabled — which DataConnection objects have had
their handlers wired (`setPeerConnectionHandlers`), which have already
fired `open`, which PEER_AUTHENTICATE dispatches are scheduled or have
their auth round trip in flight, whether the offer-expiry timer is armed
and for which connection, whether a PEER_DISCONNECT action is suspended
at its `await conn.close()`, plus a log of every `close()` call and a
counter for fresh connection object identities. -/
structure Model where
  store : PnpState
  wired : List Conn
  opened : List Conn
  pendingAuth : List Conn
  authInFlight : List Conn
  offerTimer : Option Conn
  closeCalls : List Conn
  disconnectRunning : Bool
  nextConnId : Nat
deriving DecidableEq, Repr

/-- Initial whole-system state, parametrised by the localStorage content
found at startup. -/
def initModel (stored : Option String) : Model :=
  { store := initState stored
    wired := []
    opened := []
    pendingAuth := []
    authInFlight := []
    offerTimer := none
    closeCalls := []
    disconnectRunning := false
    nextConnId := 0 }

/-- Outcome of the awaited room member query inside a discovery round. -/
inductive DiscoverOutcome where
  | members (clientsIds : List String)
  | thrown
deriving DecidableEq, Repr

/-- Events: each is one maximal synchronous segment of an action or
event handler of pnp.js. -/
inductive Ev where
  | serviceConnect
  | serviceOpen (assignedId : String)
  | serviceDisconnectedEv
  | serviceClosedEv
  | serviceErrorEv
  | incomingConn (remoteId : String)
  | connectStart (remotePeerId : String)
  | connOpen (c : Conn)
  | connClose (c : Conn)
  | connError (c : Conn)
  | offerTimeout
  | authStart
  | authFinish (c : Conn) (outcome : AuthOutcome)
  | discover (outcome : DiscoverOutcome)
  | disconnectStart
  | disconnectFinish
  | removeRemote
  | changeRemote (newRemotePeerId : String)
deriving DecidableEq, Repr

/-- Action PNP_SERVICE_CONNECT (lines 343-373), collapsing
PNP_SERVICE_RECONNECT: nothing to do when the peer socket is open or a
connection cycle is in flight; otherwise reuse an existing peer object
(reconnect) or create a fresh one and wire its handlers; either way
commit PNP_SERVICE_CONNECTING. -/
def doServiceConnect (m : Model) : Model :=
  if m.store.peerCreated ∧ m.store.pnpServiceConnectionStatus = .CONNECTED then m
  else if m.store.pnpServiceConnectionStatus = .CONNECTING then m
  else if m.store.peerCreated then
    { m with store := mutPNP_SERVICE_CONNECTING m.store }
  else
    { m with store := mutPNP_SERVICE_CONNECTING { m.store with peerCreated := true } }

/-- Handler `peer.on('open')` (lines 231-249): commit
PNP_SERVICE_CONNECTED and record the relay-assigned id when it differs. -/
def doServiceOpen (m : Model) (assignedId : String) : Option Model :=
  if m.store.peerCreated then
    let s1 := mutPNP_SERVICE_CONNECTED m.store
    let s2 := if s1.myPeerId ≠ some assignedId then mutNEW_PEER_ID s1 assignedId else s1
    some { m with store := s2 }
  else none

/-- Handler `peer.on('disconnected')` (lines 250-257). -/
def doServiceDisconnected (m : Model) : Option Model :=
  if m.store.peerCreated then
    let s1 := mutUSER_MESSAGE (mutPNP_SERVICE_DISCONNECTED m.store) serviceDisconnectedMessage
    some { m with store := s1 }
  else none

/-- Handler `peer.on('close')` (lines 258-265). -/
def doServiceClosed (m : Model) : Option Model :=
  if m.store.peerCreated then
    let s1 := mutUSER_MESSAGE (mutPNP_SERVICE_DISCONNECTED m.store) serviceClosedMessage
    some { m with store := s1 }
  else none

/-- Handler `peer.on('error')` (lines 266-280): publish the retry
message, mark the service DISCONNECTED and force-clear the peer
connection via mutation PEER_DISCONNECTED. -/
def doServiceError (m : Model) : Option Model :=
  if m.store.peerCreated then
    let s1 := mutPEER_DISCONNECTED
      (mutPNP_SERVICE_DISCONNECTED (mutUSER_MESSAGE m.store serviceErrorMessage))
    some { m with store := s1 }
  else none

/-- Handler `peer.on('connection')` (lines 282-286, accept mode): wire the
per-connection handlers on the incoming connection object and commit
PEER_CONNECTING — unconditionally, with no offer timer. -/
def doIncomingConn (m : Model) (remoteId : String) : Option Model :=
  if m.store.peerCreated then
    let c : Conn := ⟨m.nextConnId, remoteId⟩
    some { m with store := mutPEER_CONNECTING m.store
                  wired := c :: m.wired
                  nextConnId := m.nextConnId + 1 }
  else none

/-- Action PEER_CONNECT (lines 441-500) up to the end of the synchronous
part of `peerConnectLoop`: guarded no-op when already CONNECTING or
CONNECTED; otherwise close any previous `state.peerConnection` (without
clearing the field), and — with the signaling service connected — commit
PEER_CONNECTING, call `peer.connect(remotePeerId)` producing a fresh
connection object, arm the offer-expiry timer for it and wire its
handlers.  The waiting branch of the loop (service not connected) makes
no store commit and is modelled as the event being disabled. -/
def doConnectStart (m : Model) (remotePeerId : String) : Option Model :=
  if m.store.peerConnectionStatus = .CONNECTING ∨
     m.store.peerConnectionStatus = .CONNECTED then
    some m
  else if m.store.pnpServiceConnectionStatus = .CONNECTED then
    let closes := match m.store.peerConnection with
      | some prev => [prev]
      | none => []
    let c : Conn := ⟨m.nextConnId, remotePeerId⟩
    some { m with store := mutPEER_CONNECTING m.store
                  wired := c :: m.wired
                  offerTimer := some c
                  closeCalls := m.closeCalls ++ closes
                  nextConnId := m.nextConnId + 1 }
  else none

/-- Handler `peerConnection.on('open')` (lines 297-306): cancel the offer
timer tied to this connection, build the PeerFetch wrapper, commit
PEER_FETCH, and schedule the PEER_AUTHENTICATE dispatch. -/
def doConnOpen (m : Model) (c : Conn) : Option Model :=
  if c ∈ m.wired ∧ c ∉ m.opened then
    some { m with store := mutPEER_FETCH m.store c
                  opened := c :: m.opened
                  pendingAuth := m.pendingAuth ++ [c]
                  offerTimer := if m.offerTimer = some c then none else m.offerTimer }
  else none

/-- Handler `peerConnection.on('close')` (lines 308-313): cancel the offer
timer tied to this connection, commit PEER_DISCONNECTED and publish the
closed message. -/
def doConnClose (m : Model) (c : Conn) : Option Model :=
  if c ∈ m.wired then
    let s1 := mutUSER_MESSAGE (mutPEER_DISCONNECTED m.store) connClosedMessage
    some { m with store := s1
                  offerTimer := if m.offerTimer = some c then none else m.offerTimer }
  else none

/-- Handler `peerConnection.on('error')` (lines 315-321): cancel the offer
timer tied to this connection and dispatch HANDLE_PEER_CONNECTION_ERROR
with the per-connection message. -/
def doConnError (m : Model) (c : Conn) : Option Model :=
  if c ∈ m.wired then
    some { m with store := handlePeerConnectionError m.store (connErrorMessage c)
                  offerTimer := if m.offerTimer = some c then none else m.offerTimer }
  else none

/-- `handlePeerConnectOfferTimeout` (lines 478-488): when the armed timer
fires, close `state.peerConnection` if it is set — note this is the
store field, not the offer connection object the timer was armed for —
then dispatch HANDLE_PEER_CONNECTION_ERROR with the offer timeout
message. -/
def doOfferTimeout (m : Model) : Option Model :=
  match m.offerTimer with
  | some _ =>
      let closes := match m.store.peerConnection with
        | some pc => [pc]
        | none => []
      some { m with store := handlePeerConnectionError m.store offerTimeoutMessage
                    offerTimer := none
                    closeCalls := m.closeCalls ++ closes }
  | none => none

/-- The scheduled PEER_AUTHENTICATE dispatch (lines 505-517) up to the
awaited auth round trip: runs the first segment and marks the round trip
in flight. -/
def doAuthStart (m : Model) : Option Model :=
  match m.pendingAuth with
  | c :: rest =>
      some { m with store := authRequestSegment m.store c
                    pendingAuth := rest
                    authInFlight := c :: m.authInFlight }
  | [] => none

/-- Resumption of PEER_AUTHENTICATE after the auth round trip resolves
(lines 519-550). -/
def doAuthFinish (m : Model) (c : Conn) (outcome : AuthOutcome) : Option Model :=
  if c ∈ m.authInFlight then
    some { m with store := authResolveSegment m.store c outcome
                  authInFlight := m.authInFlight.erase c }
  else none

/-- Action PEER_DISCOVER (lines 401-434) for one round with the signaling
service connected: commit PEER_DISCOVERING, run `discoverRemotePeerIds`
on the awaited member list and commit PEER_DISCOVERING_DONE with its
result; a thrown query instead commits PEER_DISCOVERING_ERROR and the
discovery error message. -/
def doDiscover (m : Model) (outcome : DiscoverOutcome) : Option Model :=
  if m.store.pnpServiceConnectionStatus = .CONNECTED then
    let s1 := mutPEER_DISCOVERING m.store
    match outcome with
    | .members clientsIds =>
        let (s2, remotePeerIds) := discoverRemotePeerIds s1 clientsIds
        some { m with store := mutPEER_DISCOVERING_DONE s2 remotePeerIds }
    | .thrown =>
        let s2 := mutUSER_MESSAGE (mutPEER_DISCOVERING_ERROR s1) discoveryErrorMessage
        some { m with store := s2 }
  else none

/-- Action PEER_DISCONNECT (lines 567-581) up to the awaited
`conn.close()`: no-op when already DISCONNECTED, otherwise commit
DISCONNECTING and invoke `close()` on the active connection object if
one exists. -/
def doDisconnectStart (m : Model) : Option Model :=
  if m.store.peerConnectionStatus = .DISCONNECTED then
    some m
  else
    let closes := match m.store.peerConnection with
      | some conn => [conn]
      | none => []
    some { m with store := mutPEER_DISCONNECTING m.store
                  closeCalls := m.closeCalls ++ closes
                  disconnectRunning := true }

/-- Resumption of PEER_DISCONNECT after the close attempt (close errors
are swallowed): commit PEER_DISCONNECTED. -/
def doDisconnectFinish (m : Model) : Option Model :=
  if m.disconnectRunning then
    some { m with store := mutPEER_DISCONNECTED m.store
                  disconnectRunning := false }
  else none

/-- Action REMOVE_REMOTE_PEER_ID (lines 585-588) run to completion: full
PEER_DISCONNECT, then commit REMOTE_PEER_ID_REMOVED. -/
def doRemoveRemote (m : Model) : Option Model :=
  some { m with store := mutREMOTE_PEER_ID_REMOVED (PEER_DISCONNECT_action m.store false).1
                closeCalls := m.closeCalls ++ (PEER_DISCONNECT_action m.store false).2 }

/-- Action CHANGE_REMOTE_PEER_ID (lines 559-563) run to completion:
dispatch REMOVE_REMOTE_PEER_ID, commit NEW_REMOTE_PEER_ID with the new
id, then dispatch PEER_CONNECT.  The PEER_CONNECT tail is applied when
the signaling service is connected; otherwise its loop is still waiting
and has made no commit yet. -/
def changeRemoteBase (m : Model) (newRemotePeerId : String) : Model :=
  { m with store := mutNEW_REMOTE_PEER_ID
             (mutREMOTE_PEER_ID_REMOVED (PEER_DISCONNECT_action m.store false).1)
             newRemotePeerId
           closeCalls := m.closeCalls ++ (PEER_DISCONNECT_action m.store false).2 }

def doChangeRemote (m : Model) (newRemotePeerId : String) : Option Model :=
  match doConnectStart (changeRemoteBase m newRemotePeerId) newRemotePeerId with
  | some m3 => some m3
  | none => some (changeRemoteBase m newRemotePeerId)

/-- One step of the labelled transition system: `none` means the event is
not enabled in this state. -/
def stepEv (m : Model) : Ev → Option Model
  | .serviceConnect => some (doServiceConnect m)
  | .serviceOpen assignedId => doServiceOpen m assignedId
  | .serviceDisconnectedEv => doServiceDisconnected m
  | .serviceClosedEv => doServiceClosed m
  | .serviceErrorEv => doServiceError m
  | .incomingConn remoteId => doIncomingConn m remoteId
  | .connectStart remotePeerId => doConnectStart m remotePeerId
  | .connOpen c => doConnOpen m c
  | .connClose c => doConnClose m c
  | .connError c => doConnError m c
  | .offerTimeout => doOfferTimeout m
  | .authStart => doAuthStart m
  | .authFinish c outcome => doAuthFinish m c outcome
  | .discover outcome => doDiscover m outcome
  | .disconnectStart => doDisconnectStart m
  | .disconnectFinish => doDisconnectFinish m
  | .removeRemote => doRemoveRemote m
  | .changeRemote newRemotePeerId => doChangeRemote m newRemotePeerId

/-- Reachable whole-system states: any initial state (any localStorage
content) closed under enabled steps. -/
inductive Reachable : Model → Prop where
  | init (stored : Option String) : Reachable (initModel stored)
  | next {m m' : Model} {e : Ev} :
      Reachable m → stepEv m e = some m' → Reachable m'

/-! ### A concrete execution: fresh start, signaling connect, outbound
peer connect to "edge-1", data channel opens, authentication begins -/

/-- Fresh start with empty localStorage. -/
def demoM0 : Model := initModel none

/-- After the PNP_SERVICE_CONNECT action creates the peer object. -/
def demoM1 : Model := doServiceConnect demoM0

/-- After the signaling open event assigns peer id "me". -/
def demoM2 : Model := (doServiceOpen demoM1 "me").getD demoM0

/-- The connection object created by `peer.connect` in the demo run. -/
def demoC : Conn := ⟨0, "edge-1"⟩

/-- After PEER_CONNECT to "edge-1": CONNECTING, offer timer armed for
demoC, demoC wired. -/
def demoM3 : Model := (doConnectStart demoM2 "edge-1").getD demoM0

/-- After the open event on demoC: PeerFetch committed, auth dispatch
scheduled, offer timer cleared. -/
def demoM4 : Model := (doConnOpen demoM3 demoC).getD demoM0

/-- After the scheduled PEER_AUTHENTICATE dispatch reaches its awaited
auth round trip: status AUTHENTICATING. -/
def demoM5 : Model := (doAuthStart demoM4).getD demoM0

theorem demoM5_reachable : Reachable demoM5 := by
  have h0 : Reachable demoM0 := Reachable.init none
  have h1 : Reachable demoM1 :=
    Reachable.next h0 (show stepEv demoM0 Ev.serviceConnect = some demoM1 from rfl)
  have h2 : Reachable demoM2 :=
    Reachable.next h1 (show stepEv demoM1 (Ev.serviceOpen "me") = some demoM2 by decide)
  have h3 : Reachable demoM3 :=
    Reachable.next h2 (show stepEv demoM2 (Ev.connectStart "edge-1") = some demoM3 by decide)
  have h4 : Reachable demoM4 :=
    Reachable.next h3 (show stepEv demoM3 (Ev.connOpen demoC) = some demoM4 by decide)
  exact Reachable.next h4 (show stepEv demoM4 Ev.authStart = some demoM5 by decide)

/-! ### Claim C1 -/

/-- Claim C1 as stated: AUTHENTICATING or CONNECTED implies the
connection object and both channel handles are present; DISCONNECTED
implies all three are cleared. -/
def C1Claimed (s : PnpState) : Prop :=
  ((s.peerConnectionStatus = .AUTHENTICATING ∨ s.peerConnectionStatus = .CONNECTED) →
    s.peerConnection.isSome ∧ s.peerFetch.isSome ∧ s.edgeAPI.isSome)
  ∧ (s.peerConnectionStatus = .DISCONNECTED →
    s.peerConnection = none ∧ s.peerFetch = none ∧ s.edgeAPI = none)

/-- The provable part of C1: CONNECTED implies the connection object and
the PeerFetch handle are present, and DISCONNECTED implies the
connection object is cleared. -/
def C1Amended (s : PnpState) : Prop :=
  (s.peerConnectionStatus = .CONNECTED →
    s.peerConnection.isSome ∧ s.peerFetch.isSome)
  ∧ (s.peerConnectionStatus = .DISCONNECTED → s.peerConnection = none)

/-- Claim C1 (counterexample): the claimed invariant fails on a reachable
state — in the demo run the store is AUTHENTICATING while
`state.peerConnection` is still undefined, because the connection object
is only stored by the PEER_CONNECTED mutation after authentication
succeeds. -/
theorem pnp_c1_counterexample : ¬ (∀ m, Reachable m → C1Claimed m.store) := by
  intro h
  have h5 := h demoM5 demoM5_reachable
  have hs : demoM5.store.peerConnectionStatus = .AUTHENTICATING := by decide
  have := (h5.1 (Or.inl hs)).1
  have hc : demoM5.store.peerConnection = none := by decide
  rw [hc] at this
  exact Bool.false_ne_true this

/-! Preservation toolkit for the amended C1 invariant -/

theorem c1A_of_fields {s t : PnpState} (h : C1Amended s)
    (hst : t.peerConnectionStatus = s.peerConnectionStatus)
    (hc : t.peerConnection = s.peerConnection)
    (hf : t.peerFetch = s.peerFetch) : C1Amended t := by
  constructor
  · intro hcon; rw [hst] at hcon; rw [hc, hf]; exact h.1 hcon
  · intro hdis; rw [hst] at hdis; rw [hc]; exact h.2 hdis

theorem c1A_of_vacuous {t : PnpState}
    (h1 : t.peerConnectionStatus ≠ .CONNECTED)
    (h2 : t.peerConnectionStatus ≠ .DISCONNECTED) : C1Amended t :=
  ⟨fun hc => absurd hc h1, fun hd => absurd hd h2⟩

theorem c1A_mutPEER_DISCONNECTED (s : PnpState) :
    C1Amended (mutPEER_DISCONNECTED s) := by
  constructor
  · intro h; simp [mutPEER_DISCONNECTED] at h
  · intro _; rfl

theorem c1A_mutPEER_CONNECTED {s : PnpState} (hf : s.peerFetch.isSome) (c : Conn) :
    C1Amended (mutPEER_CONNECTED s c) := by
  constructor
  · intro _; exact ⟨rfl, hf⟩
  · intro h; simp [mutPEER_CONNECTED] at h

theorem authPassed_peerFetch {s : PnpState} {o : AuthOutcome}
    (h : authPassed s o = true) : s.peerFetch.isSome := by
  cases o with
  | response st content =>
      simp only [authPassed] at h
      split at h
      · rcases hp : s.peerFetch with _ | pf
        · rw [hp] at h; exact absurd h (by simp)
        · simp [hp]
      · exact absurd h (by simp)
  | thrown => simp [authPassed] at h

theorem c1A_authResolveSegment (s : PnpState) (c : Conn) (o : AuthOutcome) :
    C1Amended (authResolveSegment s c o) := by
  unfold authResolveSegment
  split_ifs with hp hneq
  · exact c1A_of_fields (c1A_mutPEER_CONNECTED (authPassed_peerFetch hp) c) rfl rfl rfl
  · exact c1A_mutPEER_CONNECTED (authPassed_peerFetch hp) c
  · exact c1A_of_vacuous (by simp [handlePeerConnectionError, mutPEER_CONNECTION_ERROR, mutUSER_MESSAGE])
      (by simp [handlePeerConnectionError, mutPEER_CONNECTION_ERROR, mutUSER_MESSAGE])

theorem c1A_PEER_DISCONNECT_action {s : PnpState} (b : Bool) (h : C1Amended s) :
    C1Amended (PEER_DISCONNECT_action s b).1 := by
  unfold PEER_DISCONNECT_action
  split_ifs
  · split
    · split <;> exact c1A_mutPEER_DISCONNECTED _
    · exact c1A_mutPEER_DISCONNECTED _
  · exact h

/-- One enabled step preserves the amended C1 invariant. -/
theorem stepEv_c1A {m m' : Model} {e : Ev}
    (h : C1Amended m.store) (hs : stepEv m e = some m') : C1Amended m'.store := by
  cases e <;> simp only [stepEv] at hs
  case serviceConnect =>
      cases hs
      unfold doServiceConnect
      split_ifs <;>
        exact c1A_of_fields h rfl rfl rfl
  case serviceOpen assignedId =>
      unfold doServiceOpen at hs
      split_ifs at hs
      cases hs
      split_ifs <;> exact c1A_of_fields h rfl rfl rfl
  case serviceDisconnectedEv =>
      unfold doServiceDisconnected at hs
      split_ifs at hs
      cases hs
      exact c1A_of_fields h rfl rfl rfl
  case serviceClosedEv =>
      unfold doServiceClosed at hs
      split_ifs at hs
      cases hs
      exact c1A_of_fields h rfl rfl rfl
  case serviceErrorEv =>
      unfold doServiceError at hs
      split_ifs at hs
      cases hs
      exact c1A_of_fields (c1A_mutPEER_DISCONNECTED _) rfl rfl rfl
  case incomingConn remoteId =>
      unfold doIncomingConn at hs
      split_ifs at hs
      cases hs
      exact c1A_of_vacuous (by simp [mutPEER_CONNECTING]) (by simp [mutPEER_CONNECTING])
  case connectStart remotePeerId =>
      unfold doConnectStart at hs
      split_ifs at hs
      · cases hs; exact h
      · cases hs
        exact c1A_of_vacuous (by simp [mutPEER_CONNECTING]) (by simp [mutPEER_CONNECTING])
  case connOpen c =>
      unfold doConnOpen at hs
      split_ifs at hs <;>
        (cases hs
         exact ⟨fun hcon => ⟨(h.1 hcon).1, by simp [mutPEER_FETCH]⟩, fun hdis => h.2 hdis⟩)
  case connClose c =>
      unfold doConnClose at hs
      split_ifs at hs <;>
        (cases hs
         exact c1A_of_fields (c1A_mutPEER_DISCONNECTED m.store) rfl rfl rfl)
  case connError c =>
      unfold doConnError at hs
      split_ifs at hs <;>
        (cases hs
         exact c1A_of_vacuous
           (by simp [handlePeerConnectionError, mutPEER_CONNECTION_ERROR, mutUSER_MESSAGE])
           (by simp [handlePeerConnectionError, mutPEER_CONNECTION_ERROR, mutUSER_MESSAGE]))
  case offerTimeout =>
      unfold doOfferTimeout at hs
      split at hs
      · cases hs
        exact c1A_of_vacuous
          (by simp [handlePeerConnectionError, mutPEER_CONNECTION_ERROR, mutUSER_MESSAGE])
          (by simp [handlePeerConnectionError, mutPEER_CONNECTION_ERROR, mutUSER_MESSAGE])
      · exact absurd hs (by simp)
  case authStart =>
      unfold doAuthStart at hs
      split at hs
      · cases hs
        exact c1A_of_vacuous
          (by simp [authRequestSegment, mutEDGE_API, mutUSER_MESSAGE, mutPEER_AUTHENTICATING])
          (by simp [authRequestSegment, mutEDGE_API, mutUSER_MESSAGE, mutPEER_AUTHENTICATING])
      · exact absurd hs (by simp)
  case authFinish c outcome =>
      unfold doAuthFinish at hs
      split_ifs at hs
      cases hs
      exact c1A_authResolveSegment _ _ _
  case discover outcome =>
      unfold doDiscover at hs
      split_ifs at hs
      cases outcome with
      | members clientsIds =>
          simp only [discoverRemotePeerIds] at hs
          split_ifs at hs <;> (cases hs; exact c1A_of_fields h rfl rfl rfl)
      | thrown =>
          cases hs; exact c1A_of_fields h rfl rfl rfl
  case disconnectStart =>
      unfold doDisconnectStart at hs
      split_ifs at hs
      · cases hs; exact h
      · cases hs
        exact c1A_of_vacuous (by simp [mutPEER_DISCONNECTING]) (by simp [mutPEER_DISCONNECTING])
  case disconnectFinish =>
      unfold doDisconnectFinish at hs
      split_ifs at hs
      cases hs
      exact c1A_of_fields (c1A_mutPEER_DISCONNECTED _) rfl rfl rfl
  case removeRemote =>
      unfold doRemoveRemote at hs
      cases hs
      exact c1A_of_fields (c1A_PEER_DISCONNECT_action false h) rfl rfl rfl
  case changeRemote newRemotePeerId =>
      unfold doChangeRemote at hs
      have hbase : C1Amended (changeRemoteBase m newRemotePeerId).store :=
        c1A_of_fields (c1A_PEER_DISCONNECT_action false h) rfl rfl rfl
      split at hs <;> rename_i hcs
      · unfold doConnectStart at hcs
        split_ifs at hcs
        · cases hcs; cases hs
          exact hbase
        · cases hcs; cases hs
          exact c1A_of_vacuous (by simp [mutPEER_CONNECTING]) (by simp [mutPEER_CONNECTING])
      · cases hs
        exact hbase

/-- Claim C1 (amended): in every reachable state, CONNECTED implies the
connection object and the PeerFetch handle are present, and DISCONNECTED
implies the connection object is cleared. -/
theorem pnp_c1_theorem : ∀ m, Reachable m → C1Amended m.store := by
  intro m hr
  induction hr with
  | init stored => exact ⟨by simp [initModel, initState], fun _ => rfl⟩
  | next hr hs ih => exact stepEv_c1A ih hs

/-- Witness for the amended C1 invariant at a concrete reachable state. -/
theorem pnp_c1_witness : C1Amended (initModel none).store :=
  pnp_c1_theorem (initModel none) (Reachable.init none)

/-! ### Claim C2 -/

/-- The state after the offer-expiry timer fires in the demo run (no open
event arrived since PEER_CONNECT armed it). -/
def demoT : Model := (doOfferTimeout demoM3).getD demoM0

/-- Claim C2 (code evaluated at the failing input): in the demo run the
offer timer is armed for the half-open connection demoC and
`state.peerConnection` is undefined; when the timer fires, status
becomes CONNECTION_ERROR with the claimed user message and the timer is
disarmed so it cannot fire again — but no `close()` call is ever made on
demoC, because `handlePeerConnectOfferTimeout` closes
`state.peerConnection` (undefined here) instead of the half-open offer
connection object. -/
theorem pnp_c2_theorem :
    demoM3.offerTimer = some demoC ∧
    demoM3.store.peerConnection = none ∧
    stepEv demoM3 Ev.offerTimeout = some demoT ∧
    demoT.store.peerConnectionStatus = PeerStatus.CONNECTION_ERROR ∧
    demoT.store.userMessage = offerTimeoutMessage ∧
    demoT.closeCalls = [] ∧
    demoC ∉ demoT.closeCalls ∧
    stepEv demoT Ev.offerTimeout = none := by
  decide

/-! ### Claim C3 -/

/-- Claim C3 as stated: the durable remote-peer-id entry changes only
through a PEER_AUTHENTICATE completion or the explicit remove action. -/
def C3Claimed : Prop :=
  ∀ (m m' : Model) (e : Ev), stepEv m e = some m' →
    m'.store.storedRemotePeerId ≠ m.store.storedRemotePeerId →
    (∃ c o, e = Ev.authFinish c o) ∨ e = Ev.removeRemote

/-- The state after dispatching CHANGE_REMOTE_PEER_ID "edge-B" in the
demo run. -/
def demoCR : Model := (stepEv demoM2 (Ev.changeRemote "edge-B")).getD demoM0

/-- Claim C3 (counterexample): CHANGE_REMOTE_PEER_ID writes the durable
remote-peer-id entry without any authentication handshake — dispatching
it from the demo state changes the entry from absent to "edge-B". -/
theorem pnp_c3_counterexample : ¬ C3Claimed := by
  intro h
  have h2 := h demoM2 demoCR (Ev.changeRemote "edge-B") (by decide) (by decide)
  rcases h2 with ⟨c, o, hco⟩ | hrm
  · exact Ev.noConfusion hco
  · exact Ev.noConfusion hrm

/-- Claim C3 (amended): the durable remote-peer-id entry changes only
through a PEER_AUTHENTICATE completion, the explicit
REMOVE_REMOTE_PEER_ID action, or the CHANGE_REMOTE_PEER_ID action
(which removes the old entry and writes the new one). -/
theorem pnp_c3_theorem :
    ∀ (m m' : Model) (e : Ev), stepEv m e = some m' →
    m'.store.storedRemotePeerId ≠ m.store.storedRemotePeerId →
    (∃ c o, e = Ev.authFinish c o) ∨ e = Ev.removeRemote ∨
      (∃ rid, e = Ev.changeRemote rid) := by
  intro m m' e hs hne
  cases e <;> simp only [stepEv] at hs
  case serviceConnect =>
      cases hs
      exact absurd (by unfold doServiceConnect; split_ifs <;> rfl) hne
  case serviceOpen assignedId =>
      unfold doServiceOpen at hs
      split_ifs at hs
      cases hs
      exact absurd (by split_ifs <;> rfl) hne
  case serviceDisconnectedEv =>
      unfold doServiceDisconnected at hs
      split_ifs at hs
      cases hs
      exact absurd rfl hne
  case serviceClosedEv =>
      unfold doServiceClosed at hs
      split_ifs at hs
      cases hs
      exact absurd rfl hne
  case serviceErrorEv =>
      unfold doServiceError at hs
      split_ifs at hs
      cases hs
      exact absurd rfl hne
  case incomingConn remoteId =>
      unfold doIncomingConn at hs
      split_ifs at hs
      cases hs
      exact absurd rfl hne
  case connectStart remotePeerId =>
      unfold doConnectStart at hs
      split_ifs at hs <;> (cases hs; exact absurd rfl hne)
  case connOpen c =>
      unfold doConnOpen at hs
      split_ifs at hs <;> (cases hs; exact absurd rfl hne)
  case connClose c =>
      unfold doConnClose at hs
      split_ifs at hs <;> (cases hs; exact absurd rfl hne)
  case connError c =>
      unfold doConnError at hs
      split_ifs at hs <;> (cases hs; exact absurd rfl hne)
  case offerTimeout =>
      unfold doOfferTimeout at hs
      split at hs
      · cases hs; exact absurd rfl hne
      · exact absurd hs (by simp)
  case authStart =>
      unfold doAuthStart at hs
      split at hs
      · cases hs; exact absurd rfl hne
      · exact absurd hs (by simp)
  case authFinish c outcome =>
      exact Or.inl ⟨c, outcome, rfl⟩
  case discover outcome =>
      unfold doDiscover at hs
      split_ifs at hs
      cases outcome with
      | members clientsIds =>
          simp only [discoverRemotePeerIds] at hs
          split_ifs at hs <;> (cases hs; exact absurd rfl hne)
      | thrown => cases hs; exact absurd rfl hne
  case disconnectStart =>
      unfold doDisconnectStart at hs
      split_ifs at hs <;> (cases hs; exact absurd rfl hne)
  case disconnectFinish =>
      unfold doDisconnectFinish at hs
      split_ifs at hs
      cases hs
      exact absurd rfl hne
  case removeRemote =>
      exact Or.inr (Or.inl rfl)
  case changeRemote newRemotePeerId =>
      exact Or.inr (Or.inr ⟨newRemotePeerId, rfl⟩)

/-- Witness for the amended C3 theorem at the concrete
CHANGE_REMOTE_PEER_ID step of the demo run. -/
theorem pnp_c3_witness :
    (∃ c o, Ev.changeRemote "edge-B" = Ev.authFinish c o) ∨
      Ev.changeRemote "edge-B" = Ev.removeRemote ∨
      (∃ rid, Ev.changeRemote "edge-B" = Ev.changeRemote rid) :=
  pnp_c3_theorem demoM2 demoCR (Ev.changeRemote "edge-B") (by decide) (by decide)

/-! ### Claim C4 -/

/-- Claim C4 (confirmed): for a connection whose auth response has header
status 200 and whose decoded content includes the trust marker
"Ambianic", PEER_AUTHENTICATE passes through AUTHENTICATING, ends
CONNECTED with the connection object stored, and both the in-memory and
the durable remote peer id equal the connection's peer id (assuming the
in-memory id mirrors the durable entry, which every writer of either
maintains). -/
theorem pnp_c4_theorem :
    ∀ (s : PnpState) (c : Conn) (content : String),
    s.peerFetch.isSome = true →
    jsIncludes content "Ambianic" = true →
    s.remotePeerId = s.storedRemotePeerId →
    (authRequestSegment s c).peerConnectionStatus = PeerStatus.AUTHENTICATING ∧
    (PEER_AUTHENTICATE_action s c (AuthOutcome.response 200 content)).peerConnectionStatus
        = PeerStatus.CONNECTED ∧
    (PEER_AUTHENTICATE_action s c (AuthOutcome.response 200 content)).peerConnection
        = some c ∧
    (PEER_AUTHENTICATE_action s c (AuthOutcome.response 200 content)).remotePeerId
        = some c.peer ∧
    (PEER_AUTHENTICATE_action s c (AuthOutcome.response 200 content)).storedRemotePeerId
        = some c.peer := by
  intro s c content hf hinc hsync
  obtain ⟨pf, hpf⟩ := Option.isSome_iff_exists.mp hf
  have hm : (authRequestSegment s c).peerFetch = some pf := hpf
  have hap : authPassed (authRequestSegment s c) (AuthOutcome.response 200 content) = true := by
    simp [authPassed, hm, hinc]
  refine ⟨rfl, ?_⟩
  unfold PEER_AUTHENTICATE_action authResolveSegment
  rw [if_pos hap]
  split_ifs with hne
  · exact ⟨rfl, rfl, rfl, rfl⟩
  · push_neg at hne
    refine ⟨rfl, rfl, hne, ?_⟩
    show s.storedRemotePeerId = some c.peer
    rw [← hsync]
    exact hne

/-- Witness for C4 at the demo state where the data channel has opened
(PeerFetch present, nothing persisted yet). -/
theorem pnp_c4_witness :
    (authRequestSegment demoM4.store demoC).peerConnectionStatus
        = PeerStatus.AUTHENTICATING ∧
    (PEER_AUTHENTICATE_action demoM4.store demoC
        (AuthOutcome.response 200 "Ambianic Edge v2")).peerConnectionStatus
        = PeerStatus.CONNECTED ∧
    (PEER_AUTHENTICATE_action demoM4.store demoC
        (AuthOutcome.response 200 "Ambianic Edge v2")).peerConnection = some demoC ∧
    (PEER_AUTHENTICATE_action demoM4.store demoC
        (AuthOutcome.response 200 "Ambianic Edge v2")).remotePeerId
        = some demoC.peer ∧
    (PEER_AUTHENTICATE_action demoM4.store demoC
        (AuthOutcome.response 200 "Ambianic Edge v2")).storedRemotePeerId
        = some demoC.peer :=
  pnp_c4_theorem demoM4.store demoC "Ambianic Edge v2" (by decide) (by decide) (by decide)

/-! ### Claim C5 -/

/-- Claim C5 (confirmed): when the auth response has a non-200 status, or
its decoded content lacks the trust marker, or the request/decode
throws, PEER_AUTHENTICATE ends with the user message "Remote peer
authentication failed.", status CONNECTION_ERROR, and neither the
in-memory nor the durable remote peer id is written. -/
theorem pnp_c5_theorem :
    ∀ (s : PnpState) (c : Conn) (o : AuthOutcome),
    (∀ st content, o = AuthOutcome.response st content →
       st ≠ 200 ∨ jsIncludes content "Ambianic" = false) →
    (PEER_AUTHENTICATE_action s c o).userMessage = authFailedMessage ∧
    (PEER_AUTHENTICATE_action s c o).peerConnectionStatus
        = PeerStatus.CONNECTION_ERROR ∧
    (PEER_AUTHENTICATE_action s c o).storedRemotePeerId = s.storedRemotePeerId ∧
    (PEER_AUTHENTICATE_action s c o).remotePeerId = s.remotePeerId := by
  intro s c o ho
  have hap : authPassed (authRequestSegment s c) o = false := by
    cases o with
    | thrown => rfl
    | response st content =>
        rcases ho st content rfl with h200 | hmark
        · simp [authPassed, h200]
        · by_cases h2 : st = 200
          · subst h2
            cases hpf : (authRequestSegment s c).peerFetch <;>
              simp [authPassed, hpf, hmark]
          · simp [authPassed, h2]
  unfold PEER_AUTHENTICATE_action authResolveSegment
  rw [hap]
  exact ⟨rfl, rfl, rfl, rfl⟩

/-- Witness for C5 at the demo state with a thrown auth round trip. -/
theorem pnp_c5_witness :
    (PEER_AUTHENTICATE_action demoM4.store demoC AuthOutcome.thrown).userMessage
        = authFailedMessage ∧
    (PEER_AUTHENTICATE_action demoM4.store demoC AuthOutcome.thrown).peerConnectionStatus
        = PeerStatus.CONNECTION_ERROR ∧
    (PEER_AUTHENTICATE_action demoM4.store demoC AuthOutcome.thrown).storedRemotePeerId
        = demoM4.store.storedRemotePeerId ∧
    (PEER_AUTHENTICATE_action demoM4.store demoC AuthOutcome.thrown).remotePeerId
        = demoM4.store.remotePeerId :=
  pnp_c5_theorem demoM4.store demoC AuthOutcome.thrown
    (fun _ _ h => AuthOutcome.noConfusion h)

/-! ### Claim C6 -/

/-- Claim C6 as stated: a discovery round whose room member list is the
singleton of the local peer id ends with DiscoveryStatus DONE, an empty
discovered-peer list, and the still-looking message. -/
def C6Claimed : Prop :=
  ∀ (m d : Model) (selfId : String),
    m.store.myPeerId = some selfId →
    stepEv m (Ev.discover (DiscoverOutcome.members [selfId])) = some d →
    d.store.discoveryStatus = DiscStatus.DONE ∧
    d.store.discoveredPeers = some [] ∧
    d.store.userMessage = stillLookingMessage

/-- The state after a discovery round in the demo run whose room member
list is just the local peer id. -/
def demoD : Model :=
  (stepEv demoM2 (Ev.discover (DiscoverOutcome.members ["me"]))).getD demoM0

/-- Claim C6 (counterexample): with zero remote peers the code commits
PEER_DISCOVERING_DONE with the `undefined` return value of
`discoverRemotePeerIds`, so `discoveredPeers` ends up undefined rather
than an empty list. -/
theorem pnp_c6_counterexample : ¬ C6Claimed := by
  intro h
  exact absurd (h demoM2 demoD "me" (by decide) (by decide)).2.1 (by decide)

/-- Claim C6 (amended): a discovery round whose room member list is the
singleton of the local peer id ends with DiscoveryStatus DONE (not
ERROR), the still-looking message published, and `discoveredPeers` set
to the undefined result of `discoverRemotePeerIds` — not to a list. -/
theorem pnp_c6_theorem :
    ∀ (m d : Model) (selfId : String),
    m.store.myPeerId = some selfId →
    stepEv m (Ev.discover (DiscoverOutcome.members [selfId])) = some d →
    d.store.discoveryStatus = DiscStatus.DONE ∧
    d.store.discoveredPeers = none ∧
    d.store.userMessage = stillLookingMessage := by
  intro m d selfId hid hs
  simp only [stepEv] at hs
  unfold doDiscover at hs
  split_ifs at hs
  simp only [discoverRemotePeerIds] at hs
  have hmy : (mutPEER_DISCOVERING m.store).myPeerId = some selfId := hid
  rw [hmy] at hs
  simp only [List.filter, decide_not] at hs
  simp at hs
  cases hs
  exact ⟨rfl, rfl, rfl⟩

/-- Witness for the amended C6 theorem at the demo discovery round. -/
theorem pnp_c6_witness :
    demoD.store.discoveryStatus = DiscStatus.DONE ∧
    demoD.store.discoveredPeers = none ∧
    demoD.store.userMessage = stillLookingMessage :=
  pnp_c6_theorem demoM2 demoD "me" (by decide) (by decide)

/-! ### Claim C7 -/

/-- Claim C7 (confirmed): invoking PEER_CONNECT while the status is
already CONNECTING or CONNECTED returns immediately with the whole
system state unchanged — no new connection object is allocated, the
offer timer is not touched, no close call is made. -/
theorem pnp_c7_theorem :
    ∀ (m : Model) (remotePeerId : String),
    (m.store.peerConnectionStatus = PeerStatus.CONNECTING ∨
     m.store.peerConnectionStatus = PeerStatus.CONNECTED) →
    stepEv m (Ev.connectStart remotePeerId) = some m := by
  intro m remotePeerId hg
  simp only [stepEv]
  unfold doConnectStart
  rw [if_pos hg]

/-- Witness for C7: a second PEER_CONNECT while the demo run is
CONNECTING leaves the system state untouched. -/
theorem pnp_c7_witness :
    (demoM3.store.peerConnectionStatus = PeerStatus.CONNECTING ∨
     demoM3.store.peerConnectionStatus = PeerStatus.CONNECTED) ∧
    stepEv demoM3 (Ev.connectStart "edge-2") = some demoM3 :=
  ⟨Or.inl (by decide), pnp_c7_theorem demoM3 "edge-2" (Or.inl (by decide))⟩

/-! ### Claim C8 -/

/-- Claim C8 as stated: the error funnel surfaces the message, sets
CONNECTION_ERROR, and clears the connection object and both channel
handles. -/
def C8Claimed : Prop :=
  ∀ (s : PnpState) (errMsg : String),
    (handlePeerConnectionError s errMsg).userMessage = errMsg ∧
    (handlePeerConnectionError s errMsg).peerConnectionStatus
        = PeerStatus.CONNECTION_ERROR ∧
    (handlePeerConnectionError s errMsg).peerConnection = none ∧
    (handlePeerConnectionError s errMsg).peerFetch = none ∧
    (handlePeerConnectionError s errMsg).edgeAPI = none

/-- Claim C8 (counterexample): HANDLE_PEER_CONNECTION_ERROR commits only
USER_MESSAGE and PEER_CONNECTION_ERROR; at a state holding a PeerFetch
handle, the handle survives the funnel. -/
theorem pnp_c8_counterexample : ¬ C8Claimed := by
  intro h
  exact absurd (h demoM4.store "x").2.2.2.1 (by decide)

/-- Claim C8 (amended): every negotiation error — the transport error
handler and the offer timeout handler — funnels into
HANDLE_PEER_CONNECTION_ERROR, as does authentication failure; the
funnel publishes the supplied message and sets CONNECTION_ERROR, but
leaves the connection object, both channel handles and every other
field untouched. -/
theorem pnp_c8_theorem :
    (∀ (s : PnpState) (errMsg : String),
      (handlePeerConnectionError s errMsg).userMessage = errMsg ∧
      (handlePeerConnectionError s errMsg).peerConnectionStatus
          = PeerStatus.CONNECTION_ERROR ∧
      (handlePeerConnectionError s errMsg).peerConnection = s.peerConnection ∧
      (handlePeerConnectionError s errMsg).peerFetch = s.peerFetch ∧
      (handlePeerConnectionError s errMsg).edgeAPI = s.edgeAPI ∧
      (handlePeerConnectionError s errMsg).remotePeerId = s.remotePeerId ∧
      (handlePeerConnectionError s errMsg).storedRemotePeerId = s.storedRemotePeerId ∧
      (handlePeerConnectionError s errMsg).discoveryStatus = s.discoveryStatus ∧
      (handlePeerConnectionError s errMsg).pnpServiceConnectionStatus
          = s.pnpServiceConnectionStatus) ∧
    (∀ (m m' : Model) (c : Conn), stepEv m (Ev.connError c) = some m' →
      m'.store = handlePeerConnectionError m.store (connErrorMessage c)) ∧
    (∀ (m m' : Model), stepEv m Ev.offerTimeout = some m' →
      m'.store = handlePeerConnectionError m.store offerTimeoutMessage) ∧
    (∀ (s : PnpState) (c : Conn) (o : AuthOutcome), authPassed s o = false →
      authResolveSegment s c o = handlePeerConnectionError s authFailedMessage) := by
  refine ⟨fun s errMsg => ⟨rfl, rfl, rfl, rfl, rfl, rfl, rfl, rfl, rfl⟩, ?_, ?_, ?_⟩
  · intro m m' c hs
    simp only [stepEv] at hs
    unfold doConnError at hs
    split_ifs at hs <;> (cases hs; rfl)
  · intro m m' hs
    simp only [stepEv] at hs
    unfold doOfferTimeout at hs
    split at hs
    · cases hs; rfl
    · exact absurd hs (by simp)
  · intro s c o hap
    unfold authResolveSegment
    rw [hap]
    rfl

/-- Witness for the amended C8 theorem: the funnel keeps the PeerFetch
handle at a concrete state, and the concrete offer-timeout step of the
demo run factors through the funnel. -/
theorem pnp_c8_witness :
    (handlePeerConnectionError demoM4.store "x").peerFetch = demoM4.store.peerFetch ∧
    demoT.store = handlePeerConnectionError demoM3.store offerTimeoutMessage :=
  ⟨(pnp_c8_theorem.1 demoM4.store "x").2.2.2.1,
   pnp_c8_theorem.2.2.1 demoM3 demoT (by decide)⟩

/-! ### Claim C9 -/

/-- Claim C9 (confirmed): PEER_DISCONNECT is a no-op when already
DISCONNECTED; otherwise it passes through DISCONNECTING, closes the
active connection object exactly when one exists, ends DISCONNECTED
with the connection object and both channel handles cleared, and its
result does not depend on whether the close call throws. -/
theorem pnp_c9_theorem :
    ∀ (s : PnpState) (b1 b2 : Bool),
    (s.peerConnectionStatus = PeerStatus.DISCONNECTED →
       PEER_DISCONNECT_action s b1 = (s, [])) ∧
    (s.peerConnectionStatus ≠ PeerStatus.DISCONNECTED →
       (PEER_DISCONNECT_action s b1).1.peerConnectionStatus = PeerStatus.DISCONNECTED ∧
       (PEER_DISCONNECT_action s b1).1.peerConnection = none ∧
       (PEER_DISCONNECT_action s b1).1.peerFetch = none ∧
       (PEER_DISCONNECT_action s b1).1.edgeAPI = none ∧
       (PEER_DISCONNECT_action s b1).2 =
         (match s.peerConnection with | some c => [c] | none => [])) ∧
    PEER_DISCONNECT_action s b1 = PEER_DISCONNECT_action s b2 := by
  intro s b1 b2
  refine ⟨fun hd => ?_, fun hnd => ?_, ?_⟩
  · unfold PEER_DISCONNECT_action
    rw [if_neg (not_not_intro hd)]
  · unfold PEER_DISCONNECT_action
    rw [if_pos hnd]
    rw [show (mutPEER_DISCONNECTING s).peerConnection = s.peerConnection from rfl]
    cases hc : s.peerConnection with
    | some conn => cases b1 <;> exact ⟨rfl, rfl, rfl, rfl, rfl⟩
    | none => exact ⟨rfl, rfl, rfl, rfl, rfl⟩
  · unfold PEER_DISCONNECT_action
    split_ifs
    · split <;> (cases b1 <;> cases b2 <;> rfl)
    · rfl

/-- A concrete CONNECTED state for exercising disconnect and accept-mode
behavior. -/
def demoS9 : PnpState := mutPEER_CONNECTED demoM5.store demoC

/-- Witness for C9 at a concrete CONNECTED state with a throwing close
call. -/
theorem pnp_c9_witness :
    ((PEER_DISCONNECT_action demoS9 true).1.peerConnectionStatus
        = PeerStatus.DISCONNECTED ∧
     (PEER_DISCONNECT_action demoS9 true).1.peerConnection = none ∧
     (PEER_DISCONNECT_action demoS9 true).1.peerFetch = none ∧
     (PEER_DISCONNECT_action demoS9 true).1.edgeAPI = none ∧
     (PEER_DISCONNECT_action demoS9 true).2 =
       (match demoS9.peerConnection with | some c => [c] | none => [])) ∧
    PEER_DISCONNECT_action demoS9 true = PEER_DISCONNECT_action demoS9 false :=
  ⟨(pnp_c9_theorem demoS9 true false).2.1 (by decide),
   (pnp_c9_theorem demoS9 true false).2.2⟩

/-! ### Claim C10 -/

/-- Claim C10 (confirmed): the incoming-connection handler wires the new
connection and commits PEER_CONNECTING unconditionally — whatever the
current status — without closing the existing connection object or
clearing the channel handles or the offer timer. -/
theorem pnp_c10_theorem :
    ∀ (m m' : Model) (remoteId : String),
    stepEv m (Ev.incomingConn remoteId) = some m' →
    m'.store.peerConnectionStatus = PeerStatus.CONNECTING ∧
    m'.store.peerConnection = m.store.peerConnection ∧
    m'.store.peerFetch = m.store.peerFetch ∧
    m'.store.edgeAPI = m.store.edgeAPI ∧
    m'.closeCalls = m.closeCalls ∧
    m'.offerTimer = m.offerTimer ∧
    m'.wired = Conn.mk m.nextConnId remoteId :: m.wired := by
  intro m m' remoteId hs
  simp only [stepEv] at hs
  unfold doIncomingConn at hs
  split_ifs at hs
  cases hs
  exact ⟨rfl, rfl, rfl, rfl, rfl, rfl, rfl⟩

/-- The demo run after authentication succeeds: CONNECTED to demoC. -/
def demoM6 : Model :=
  (stepEv demoM5 (Ev.authFinish demoC (AuthOutcome.response 200 "Ambianic"))).getD demoM0

/-- The demo run after an incoming connection arrives while CONNECTED. -/
def demoM7 : Model := (stepEv demoM6 (Ev.incomingConn "intruder")).getD demoM0

/-- Witness for C10: an incoming connection while the demo run is
CONNECTED flips the status to CONNECTING and leaves the stored
connection, handles and logs untouched. -/
theorem pnp_c10_witness :
    demoM6.store.peerConnectionStatus = PeerStatus.CONNECTED ∧
    (demoM7.store.peerConnectionStatus = PeerStatus.CONNECTING ∧
     demoM7.store.peerConnection = demoM6.store.peerConnection ∧
     demoM7.store.peerFetch = demoM6.store.peerFetch ∧
     demoM7.store.edgeAPI = demoM6.store.edgeAPI ∧
     demoM7.closeCalls = demoM6.closeCalls ∧
     demoM7.offerTimer = demoM6.offerTimer ∧
     demoM7.wired = Conn.mk demoM6.nextConnId "intruder" :: demoM6.wired) :=
  ⟨by decide, pnp_c10_theorem demoM6 demoM7 "intruder" (by decide)⟩

end AmbianicPnp
